import Mathlib

/-!
Verification of the apartment-monitor core (listing monitor for German rental
markets): shallow embedding of the filter matcher, notification dispatcher,
provider adapters (cooldown gate, Immowelt URL cascade), listing normalizer,
and the MongoDB persistence operations, with theorems settling the spec's
claims about them.

Conventions: Python floats carrying prices / rooms / areas / timestamps are
modelled as `ℚ`; Python `str.lower` as an ASCII character-wise lowering
(all concrete inputs used below are ASCII, except literals copied verbatim
from the source); Python dict fields that may be absent as `Option`;
fallible calls as `Option` results.
-/

namespace Nemez

/-- Python `str.lower()` restricted to the ASCII range (char-wise
`Char.toLower`). -/
def pyLower (s : String) : String := String.mk (s.data.map Char.toLower)

/-- Substring test on character lists: `subChars n h = true` iff `n` occurs
as a contiguous run inside `h` (Python `n in h` for strings). -/
def subChars (needle : List Char) : List Char → Bool
  | [] => needle.isEmpty
  | c :: t => needle.isPrefixOf (c :: t) || subChars needle t

/-- Python `needle in hay` for strings. -/
def pyIn (needle hay : String) : Bool := subChars needle.data hay.data

/-- Python `str.strip()`: drop leading and trailing whitespace. -/
def pyStrip (s : String) : String :=
  String.mk (((s.data.dropWhile Char.isWhitespace).reverse.dropWhile
    Char.isWhitespace).reverse)

/-- Python `sep.join(parts)`. -/
def pyJoin (sep : String) : List String → String
  | [] => ""
  | [x] => x
  | x :: y :: rest => x ++ sep ++ pyJoin sep (y :: rest)

/-- Python `s.startswith(pre)`. -/
def pyStartsWith (pre s : String) : Bool := pre.data.isPrefixOf s.data

/-- Python `s[:n]`. -/
def pyTake (s : String) (n : Nat) : String := String.mk (s.data.take n)

/-- Python truthiness of an optional string (`None` and `""` are falsy). -/
def truthyStr : Option String → Bool
  | none => false
  | some s => s != ""

/-- Python truthiness of an optional number (`None` and `0` are falsy). -/
def truthyQ : Option ℚ → Bool
  | none => false
  | some q => q != 0

/-- `user_filter` document (src/monitor.py `_matches_user_filters` reads these
keys; also the per-city search filters handed to the provider adapters). -/
structure UserFilter where
  city : Option String := none
  price_min : Option ℚ := none
  price_max : Option ℚ := none
  rooms_min : Option ℚ := none
  rooms_max : Option ℚ := none
  area_min : Option ℚ := none
  area_max : Option ℚ := none
  keywords : Option (List String) := none
deriving Repr, DecidableEq

/-- The normalized apartment payload fields read by the matcher
(`apartment_data.get(..., default)`). -/
structure AptData where
  city : String := ""
  title : String := ""
  description : String := ""
  price : ℚ := 0
  rooms : ℚ := 0
  area : ℚ := 0
deriving Repr, DecidableEq

/-- monitor.py lines 249-252: reject when both the filter city and the listing
city are truthy and `user_filter['city'].lower() not in
apartment_data['city'].lower()` (one direction only). -/
def cityReject (f : UserFilter) (a : AptData) : Bool :=
  truthyStr f.city && (a.city != "") &&
    !(pyIn (pyLower (f.city.getD "")) (pyLower a.city))

/-- monitor.py lines 255-260: price range test, entered only when
`price > 0`; each bound applies only when truthy (so a 0 bound is ignored). -/
def priceReject (f : UserFilter) (a : AptData) : Bool :=
  decide (0 < a.price) &&
    ((truthyQ f.price_min && decide (a.price < f.price_min.getD 0)) ||
     (truthyQ f.price_max && decide (f.price_max.getD 0 < a.price)))

/-- monitor.py lines 263-268: rooms range test, entered only when
`rooms > 0`. -/
def roomsReject (f : UserFilter) (a : AptData) : Bool :=
  decide (0 < a.rooms) &&
    ((truthyQ f.rooms_min && decide (a.rooms < f.rooms_min.getD 0)) ||
     (truthyQ f.rooms_max && decide (f.rooms_max.getD 0 < a.rooms)))

/-- monitor.py lines 271-276: area range test, entered only when
`area > 0`. -/
def areaReject (f : UserFilter) (a : AptData) : Bool :=
  decide (0 < a.area) &&
    ((truthyQ f.area_min && decide (a.area < f.area_min.getD 0)) ||
     (truthyQ f.area_max && decide (f.area_max.getD 0 < a.area)))

/-- monitor.py `_matches_user_filters` (lines 239-305): no stored filter
accepts everything; then the city, price, rooms, area rejections in order.
The keywords block (lines 278-299) computes a `keyword_match` flag and
discards it (the strict return is commented out in the source), so the
function returns `True` after the area test; the surrounding
`except: return True` never fires in this total model. -/
def matchesUserFilters (uf : Option UserFilter) (a : AptData) : Bool :=
  match uf with
  | none => true
  | some f =>
    if cityReject f a then false
    else if priceReject f a then false
    else if roomsReject f a then false
    else if areaReject f a then false
    else true

/-- Spec-modelled city comparison for C7, following the spec's words:
"case-insensitive substring relation ... in either direction". -/
def cityMatchEitherDirection (fc lc : String) : Bool :=
  pyIn (pyLower fc) (pyLower lc) || pyIn (pyLower lc) (pyLower fc)

theorem cityReject_city_irrelevant (f : UserFilter) (a : AptData)
    (pmin pmax rmin rmax amin amax : Option ℚ) :
    cityReject { f with price_min := pmin, price_max := pmax,
                        rooms_min := rmin, rooms_max := rmax,
                        area_min := amin, area_max := amax } a = cityReject f a := by
  simp [cityReject]

/-- Claim C6: the price, rooms and area range tests are applied only when the
corresponding listing value is strictly positive — a listing whose value is 0
behaves exactly as if the filter had no bounds for that attribute; in
particular a filter `{city := Berlin, rooms_min := 2}` accepts a Berlin
listing with `rooms = 0`. -/
theorem zeroValuesSkipRangeTests (f : UserFilter) (a : AptData) :
    matchesUserFilters (some f) { a with rooms := 0 } =
      matchesUserFilters (some { f with rooms_min := none, rooms_max := none })
        { a with rooms := 0 }
    ∧ matchesUserFilters (some f) { a with price := 0 } =
      matchesUserFilters (some { f with price_min := none, price_max := none })
        { a with price := 0 }
    ∧ matchesUserFilters (some f) { a with area := 0 } =
      matchesUserFilters (some { f with area_min := none, area_max := none })
        { a with area := 0 }
    ∧ matchesUserFilters (some { city := some "Berlin", rooms_min := some 2 })
        { city := "Berlin", rooms := 0 } = true := by
  refine ⟨?_, ?_, ?_, by decide⟩ <;>
    simp [matchesUserFilters, cityReject, priceReject, roomsReject, areaReject, truthyQ]

/-- Claim C7 counterexample: filter city "Berlin Mitte" against listing city
"Berlin": the listing city is a case-insensitive substring of the filter city
(so the claim's either-direction test matches), yet the code rejects, because
monitor.py line 251 only tests filter-city ⊆ listing-city. -/
theorem cityMatchOneDirectional_cx :
    matchesUserFilters (some { city := some "Berlin Mitte" }) { city := "Berlin" } = false
    ∧ cityMatchEitherDirection "Berlin Mitte" "Berlin" = true := by
  exact ⟨by decide, by decide⟩

/-- Claim C7 amended: when the filter city is set and both sides are
non-empty, the city test rejects iff the lowercased filter city is NOT a
substring of the lowercased listing city (one direction only); the test is
skipped when the filter city is unset or empty or the listing city is empty;
a city rejection makes the whole match fail. -/
theorem cityTestOneDirection :
    (∀ (f : UserFilter) (a : AptData) (fc : String), f.city = some fc → fc ≠ "" →
        a.city ≠ "" → cityReject f a = !(pyIn (pyLower fc) (pyLower a.city)))
    ∧ (∀ (f : UserFilter) (a : AptData), f.city = none → cityReject f a = false)
    ∧ (∀ (f : UserFilter) (a : AptData), f.city = some "" → cityReject f a = false)
    ∧ (∀ (f : UserFilter) (a : AptData), a.city = "" → cityReject f a = false)
    ∧ (∀ (f : UserFilter) (a : AptData), cityReject f a = true →
        matchesUserFilters (some f) a = false) := by
  refine ⟨?_, ?_, ?_, ?_, ?_⟩
  · intro f a fc hf h1 h2
    simp [cityReject, hf, truthyStr, h1, h2]
  · intro f a hf; simp [cityReject, hf, truthyStr]
  · intro f a hf; simp [cityReject, hf, truthyStr]
  · intro f a ha; simp [cityReject, ha]
  · intro f a h; simp [matchesUserFilters, h]

/-- Witness for `cityTestOneDirection` at a concrete filter and listing. -/
theorem cityTestOneDirection_witness :
    cityReject { city := some "Berlin Mitte" } { city := "Berlin" } =
      !(pyIn (pyLower "Berlin Mitte") (pyLower "Berlin")) :=
  cityTestOneDirection.1 { city := some "Berlin Mitte" } { city := "Berlin" }
    "Berlin Mitte" rfl (by decide) (by decide)

abbrev UserId := Nat

/-- State owned by the notification dispatcher (`ApartmentMonitor`):
`_user_last_notify_ts`, `_cycle_user_sent`, and the rows of the
`notifications` collection appended by `save_notification`
(mongodb_manager.py lines 298-312: an unconditional `insert_one`). -/
structure DispatchState where
  lastNotify : List (UserId × ℚ) := []
  cycleSent : List (UserId × Nat) := []
  notifications : List (UserId × String) := []
deriving Repr, DecidableEq

/-- Dict update on an association list. -/
def setKey {β : Type} (l : List (UserId × β)) (u : UserId) (v : β) : List (UserId × β) :=
  (u, v) :: l.filter (fun p => p.1 != u)

/-- monitor.py `_send_user_notification` (lines 208-237): after the throttle
sleep, write `_user_last_notify_ts[user] = time.time()` (modelled by `now`);
return early when the per-cycle counter reached `max_per_cycle`; otherwise
FIRST `save_notification(user, apartment_id)` (an unconditional insert), THEN
await `send_apartment_notification`, then increment the per-cycle counter.
`sendReturns` models whether the awaited messaging call RETURNS (true) or
raises into the surrounding `except` (false, skipping only the increment).
Note that `send_apartment_notification` swallows all delivery exceptions
internally (see `sendApartmentNotificationRaises`), so a failed delivery
still takes the `sendReturns = true` path; the raise path is reachable only
by non-delivery errors such as task cancellation. -/
def sendUserNotification (st : DispatchState) (u : UserId) (aptId : String)
    (now : ℚ) (cap : Nat) (sendReturns : Bool) : DispatchState :=
  let st1 := { st with lastNotify := setKey st.lastNotify u now }
  let sent := ((st1.cycleSent.lookup u).getD 0)
  if cap ≤ sent then st1
  else
    let st2 := { st1 with notifications := st1.notifications ++ [(u, aptId)] }
    if sendReturns then { st2 with cycleSent := setKey st2.cycleSent u (sent + 1) }
    else st2

/-- notifications.py `send_apartment_notification` (lines 54-243): the whole
body after the bot-instance check sits in `try: ... except Exception: log`
(lines 60, 242-243), so the call returns normally whatever the delivery
outcome — it never raises into the dispatcher. `deliveryOk` is whether the
underlying Telegram send succeeded; the result is whether the call raises. -/
def sendApartmentNotificationRaises (deliveryOk : Bool) : Bool :=
  match deliveryOk with
  | true => false
  | false => false

/-- The dispatcher step as driven by the real messaging collaborator: the
awaited call raises iff `sendApartmentNotificationRaises` says so (it never
does), so both successful and failed deliveries take the no-raise path of
`sendUserNotification`. -/
def dispatchNotification (st : DispatchState) (u : UserId) (aptId : String)
    (now : ℚ) (cap : Nat) (deliveryOk : Bool) : DispatchState :=
  sendUserNotification st u aptId now cap (!sendApartmentNotificationRaises deliveryOk)

/-- Number of NotificationRecords for a given (user, listing) pair. -/
def countPair (st : DispatchState) (u : UserId) (aptId : String) : Nat :=
  (st.notifications.filter (fun p => p.1 == u && p.2 == aptId)).length

/-- One `create_index` call of mongodb_manager.py `_create_indexes`
(lines 52-80): the collection, the indexed field(s), and the unique flag. -/
structure IndexSpec where
  collection : String
  fields : List String
  unique : Bool
deriving Repr, DecidableEq

/-- The exact index set created by `_create_indexes` (lines 56-75). -/
def createdIndexes : List IndexSpec :=
  [⟨"users", ["telegram_id"], true⟩,
   ⟨"subscriptions", ["user_id"], false⟩,
   ⟨"subscriptions", ["expires_at"], false⟩,
   ⟨"user_filters", ["user_id"], true⟩,
   ⟨"apartments", ["external_id"], true⟩,
   ⟨"apartments", ["city"], false⟩,
   ⟨"apartments", ["price"], false⟩,
   ⟨"apartments", ["rooms"], false⟩,
   ⟨"apartments", ["created_at"], false⟩,
   ⟨"notifications", ["user_id"], false⟩,
   ⟨"notifications", ["apartment_id"], false⟩,
   ⟨"notifications", ["created_at"], false⟩]

/-- Claim C1 counterexample: dispatching the same (user, listing) pair twice
(the Scheduler re-processing a listing already notified) yields TWO
NotificationRecords — there is no pre-delivery check and no unique composite
index, so "at most one NotificationRecord ever exists" is false. -/
theorem noDuplicateSuppression_cx :
    countPair (sendUserNotification
        (sendUserNotification {} 7 "apt_1" 10 5 true) 7 "apt_1" 20 5 true) 7 "apt_1" = 2
    ∧ ¬ (2 ≤ 1) := by
  exact ⟨by decide, by decide⟩

/-- Claim C1 amended: the dispatcher performs NO per-(user, listing)
pre-delivery check — below the per-cycle cap it unconditionally appends a
NotificationRecord, whatever records already exist — and the notifications
collection carries only non-unique single-field indexes, so no unique
composite constraint suppresses duplicates either; at-most-once delivery
relies solely on the listing-level known-id skip in the worker. -/
theorem dispatcherAppendsUnconditionally :
    (∀ (st : DispatchState) (u : UserId) (aptId : String) (now : ℚ) (cap : Nat) (ok : Bool),
        (st.cycleSent.lookup u).getD 0 < cap →
        (sendUserNotification st u aptId now cap ok).notifications =
          st.notifications ++ [(u, aptId)])
    ∧ (∀ ix ∈ createdIndexes, ix.collection = "notifications" →
        ix.unique = false ∧ ix.fields.length = 1) := by
  constructor
  · intro st u aptId now cap ok h
    simp only [sendUserNotification]
    rw [if_neg (by omega)]
    split <;> rfl
  · intro ix hix hcoll
    fin_cases hix <;> simp_all

/-- Witness for `dispatcherAppendsUnconditionally` at a concrete state. -/
theorem dispatcherAppendsUnconditionally_witness :
    (sendUserNotification {} 7 "apt_1" 10 5 true).notifications = [] ++ [(7, "apt_1")]
    ∧ ((⟨"notifications", ["user_id"], false⟩ : IndexSpec).unique = false
        ∧ (["user_id"] : List String).length = 1) :=
  ⟨dispatcherAppendsUnconditionally.1 {} 7 "apt_1" 10 5 true (by decide),
   dispatcherAppendsUnconditionally.2 ⟨"notifications", ["user_id"], false⟩ (by decide) rfl⟩

/-- Claim C2 counterexample: with a failing delivery (`deliveryOk = false`),
the NotificationRecord for the pair is nonetheless present afterwards — the
record is inserted BEFORE the messaging call, not after a successful one. -/
theorem recordWrittenBeforeDelivery_cx :
    (dispatchNotification {} 7 "apt_1" 10 5 false).notifications = [(7, "apt_1")]
    ∧ ([(7, "apt_1")] : List (UserId × String)) ≠ [] := by
  exact ⟨by decide, by decide⟩

/-- Claim C2 amended: the NotificationRecord is appended immediately BEFORE
delivery is attempted, and `send_apartment_notification` swallows all
delivery exceptions (notifications.py lines 60, 242-243), so the dispatcher
cannot observe a delivery failure: on success and on failure alike the
record remains AND the per-cycle counter is incremented — a failed attempt
leaves an audit row, and the dispatcher's raise path (which would skip only
the increment) is never taken by a delivery failure. -/
theorem recordPrecedesDelivery (st : DispatchState) (u : UserId) (aptId : String)
    (now : ℚ) (cap : Nat) (deliveryOk : Bool)
    (h : (st.cycleSent.lookup u).getD 0 < cap) :
    (dispatchNotification st u aptId now cap deliveryOk).notifications =
      st.notifications ++ [(u, aptId)]
    ∧ (dispatchNotification st u aptId now cap deliveryOk).cycleSent =
      setKey st.cycleSent u (((st.cycleSent.lookup u).getD 0) + 1)
    ∧ sendApartmentNotificationRaises deliveryOk = false := by
  have hraise : sendApartmentNotificationRaises deliveryOk = false := by
    cases deliveryOk <;> rfl
  refine ⟨?_, ?_, hraise⟩ <;>
    · simp only [dispatchNotification, sendUserNotification, hraise, Bool.not_false]
      rw [if_neg (by omega)]
      simp

/-- Witness for `recordPrecedesDelivery` at a concrete state with a failing
delivery. -/
theorem recordPrecedesDelivery_witness :
    (dispatchNotification {} 7 "apt_1" 10 5 false).notifications = [] ++ [(7, "apt_1")]
    ∧ (dispatchNotification {} 7 "apt_1" 10 5 false).cycleSent =
      setKey (DispatchState.cycleSent {}) 7
        (((DispatchState.cycleSent {}).lookup 7).getD 0 + 1)
    ∧ sendApartmentNotificationRaises false = false :=
  recordPrecedesDelivery {} 7 "apt_1" 10 5 false (by decide)

/-- The methods defined by the `ApartmentMonitor` class (monitor.py
lines 13-333), in source order. -/
def apartmentMonitorMethods : List String :=
  ["__init__", "start_monitoring", "stop_monitoring", "_monitoring_loop",
   "_load_known_apartments", "_enqueue_city_jobs", "_worker_loop",
   "_process_new_apartment", "_send_user_notification", "_matches_user_filters",
   "_is_quiet_hours", "force_check", "get_monitoring_status"]

/-- Outcome of a Python attribute call: either the call proceeds, or attribute
lookup fails with `AttributeError` naming the missing attribute. -/
inductive PyCall (α : Type) where
  | ok (value : α)
  | attributeError (missing : String)
deriving Repr, DecidableEq

/-- Dynamic method dispatch on an `ApartmentMonitor` instance. -/
def callMonitorMethod (name : String) : PyCall Unit :=
  if apartmentMonitorMethods.contains name then .ok () else .attributeError name

/-- monitor.py `force_check` (lines 322-325): `await self._check_new_apartments()`. -/
def forceCheck : PyCall Unit := callMonitorMethod "_check_new_apartments"

/-- Claim C3: `force_check` calls `self._check_new_apartments()`, but no such
method exists on `ApartmentMonitor` (or anywhere in the repository), so the
call raises `AttributeError` — no adapter runs, no cooldown is bypassed, and
the pass does not complete without error. -/
theorem forceCheckRaisesAttributeError :
    forceCheck = PyCall.attributeError "_check_new_apartments"
    ∧ apartmentMonitorMethods.contains "_check_new_apartments" = false := by
  exact ⟨by decide, by decide⟩

/-- real_api_system.py `_can_run_now` quiet-hours test (line 563):
`(start < end and start <= hour < end) or (start > end and (hour >= start or
hour < end))`. -/
def isQuietHour (hour qs qe : Nat) : Bool :=
  (decide (qs < qe) && decide (qs ≤ hour) && decide (hour < qe)) ||
  (decide (qe < qs) && (decide (qs ≤ hour) || decide (hour < qe)))

/-- real_api_system.py `_can_run_now` (lines 551-567): the effective cooldown
is `APIFY_COOLDOWN_SECONDS` scaled by `APIFY_QUIET_SCALING` during quiet
hours; a new run is allowed once `now - last ≥ cooldown`. -/
def canRunNow (lastRun now base scaling : ℚ) (hour qs qe : Nat) : Bool :=
  decide (base * (if isQuietHour hour qs qe then scaling else 1) ≤ now - lastRun)

/-- real_api_system.py `_mark_run` (lines 569-574): stamp
`last_run_ts = time.time()`. -/
def markRun (now : ℚ) : ℚ := now

/-- real_api_system.py `_search_apify_immoscout24` (lines 247-307), sync mode
(`APIFY_SYNC_RUN`), reduced to its cooldown/stamp control flow: skip when the
cooldown has not elapsed and `_bypass_cooldown` is unset; `runResult = none`
models `_start_apify_run_sync_get_items` returning `None` (non-2xx such as a
402 quota error, or a transport failure) — the code then returns `[]` BEFORE
reaching `_mark_run`; only a returned dataset body (`some items`, possibly
empty) is followed by `_mark_run`. Conversion and filtering of the returned
items (lines 283-304) do not touch the timestamp and are omitted; the result
pairs the items with the adapter's `last_run_ts` after the call. -/
def searchApifyIS24sync {α : Type} (lastRun now : ℚ) (hour qs qe : Nat)
    (base scaling : ℚ) (bypass : Bool) (runResult : Option (List α)) :
    List α × ℚ :=
  if !canRunNow lastRun now base scaling hour qs qe && !bypass then ([], lastRun)
  else
    match runResult with
    | none => ([], lastRun)
    | some items => (items, markRun now)

/-- The `location_ids` table of `_search_apify_immowelt`
(real_api_system.py lines 352-357). -/
def immoweltLocationIds : List (String × String) :=
  [("berlin", "AD08DE6681"), ("hamburg", "AD08DE6683"), ("münchen", "AD08DE6679"),
   ("muenchen", "AD08DE6679"), ("munich", "AD08DE6679"), ("köln", "AD08DE6748"),
   ("koeln", "AD08DE6748"), ("cologne", "AD08DE6748"),
   ("frankfurt am main", "AD08DE6678"), ("frankfurt", "AD08DE6678"),
   ("stuttgart", "AD08DE6691"), ("düsseldorf", "AD08DE6698"),
   ("duesseldorf", "AD08DE6698"), ("dusseldorf", "AD08DE6698"),
   ("leipzig", "AD08DE6707"), ("dortmund", "AD08DE6696"), ("essen", "AD08DE6700"),
   ("bremen", "AD08DE6685"), ("dresden", "AD08DE6695")]

/-- Python `int()` truncation toward zero on a rational. -/
def pyInt (q : ℚ) : Int := Int.tdiv q.num q.den

/-- real_api_system.py lines 347-391: build the Immowelt classified-search
URLs from the filters — the full-filter start URL, the relaxed URL with the
minimum bounds removed, and the location-only URL (the three-tier cascade).
`quote` models `urllib.parse.quote` for the unknown-city branch. -/
def buildImmoweltUrls (quote : String → String) (f : UserFilter) : List String :=
  let city := f.city.getD "Berlin"
  let cityKey := pyStrip (pyLower city)
  let base := "https://www.immowelt.de/classified-search"
  let locParam :=
    match immoweltLocationIds.lookup cityKey with
    | some loc => "locations=" ++ loc
    | none =>
      let cityLabel :=
        if cityKey == "muenchen" || cityKey == "munich" then "München"
        else if cityKey == "koeln" || cityKey == "cologne" then "Köln"
        else if cityKey == "duesseldorf" || cityKey == "dusseldorf" then "Düsseldorf"
        else city
      "locations=" ++ quote cityLabel
  let params := ["distributionTypes=Rent", "estateTypes=Apartment", locParam]
    ++ (match f.price_min with
        | some q => ["priceMin=" ++ toString (pyInt q)] | none => [])
    ++ (match f.price_max with
        | some q => ["priceMax=" ++ toString (pyInt q)] | none => [])
    ++ (match f.rooms_min with
        | some q => ["numberOfRoomsMin=" ++ toString (pyInt q)] | none => [])
    ++ (match f.rooms_max with
        | some q => ["numberOfRoomsMax=" ++ toString (pyInt q)] | none => [])
  let startUrl := base ++ "?" ++ pyJoin "&" params
  let relaxedParams := params.filter
    (fun p => !(pyStartsWith "priceMin=" p || pyStartsWith "numberOfRoomsMin=" p))
  let relaxedUrl := base ++ "?" ++ pyJoin "&" relaxedParams
  let locOnlyParams := params.filter
    (fun p => pyStartsWith "distributionTypes=" p || pyStartsWith "estateTypes=" p
      || pyStartsWith "locations=" p)
  let locOnlyUrl := base ++ "?" ++ pyJoin "&" locOnlyParams
  [startUrl, relaxedUrl, locOnlyUrl]

/-- The `for i, url in enumerate(urls_to_try)` loop of
`_search_apify_immowelt` (real_api_system.py lines 417-486): for EACH url the
retry loop assigns `items` to that url's (deterministic) fetch result; the
loop body contains no break after a successful url, so every url is attempted
and `items` is simply overwritten each iteration. -/
def immoweltRunUrls {α : Type} (fetch : String → List α) :
    List String → List α → List α
  | [], items => items
  | url :: rest, _ => immoweltRunUrls fetch rest (fetch url)

/-- real_api_system.py `_search_apify_immowelt` (lines 309-524), filters-built
branch, reduced to its url-cascade/stamp control flow: disabled flag
(`ENABLE_IMMOWELT_LIVE`), cooldown gate, the url loop over the three built
URLs, then `if not items: return []` (lines 491-493, before `_mark_run`) and
`_mark_run('immowelt')` only for a non-empty result (line 495). `fetch`
models the per-url outcome of the actor call after its retry loop (a failed
or empty url yields `[]`). Conversion of the items (lines 499-521) does not
touch the timestamp and is omitted. -/
def searchApifyImmowelt {α : Type} (enabled : Bool) (lastRun now : ℚ)
    (hour qs qe : Nat) (base scaling : ℚ) (bypass : Bool)
    (quote : String → String) (fetch : String → List α) (f : UserFilter) :
    List α × ℚ :=
  if !enabled then ([], lastRun)
  else if !canRunNow lastRun now base scaling hour qs qe && !bypass then ([], lastRun)
  else
    let urls := buildImmoweltUrls quote f
    let items := immoweltRunUrls fetch urls []
    if items.isEmpty then ([], lastRun) else (items, markRun now)

/-- Spec-modelled cascade for C4, following the spec's words: "The cascade
stops at the first tier that returns ≥1 item." -/
def cascadeFirstNonEmpty {α : Type} (fetch : String → List α) :
    List String → List α
  | [] => []
  | url :: rest =>
    match fetch url with
    | [] => cascadeFirstNonEmpty fetch rest
    | items => items

theorem canRunNowEval1 : canRunNow 0 10000 600 3 12 23 7 = true := by
  have h : isQuietHour 12 23 7 = false := by decide
  simp only [canRunNow, h, Bool.false_eq_true, if_false, decide_eq_true_eq]
  norm_num

/-- Concrete Immowelt query filters for the C4 scenario. -/
def cxImmoweltFilters : UserFilter :=
  { city := some "Berlin", price_min := some 400, price_max := some 1500,
    rooms_min := some 2 }

/-- The three cascade URLs built from `cxImmoweltFilters`. -/
def cxImmoweltUrls : List String := buildImmoweltUrls id cxImmoweltFilters

/-- Fetch outcome for the C4 scenario: the full-filter URL returns 0 items,
the relaxed URL returns 4 items, the location-only URL returns 0 items. -/
def cxImmoweltFetch : String → List Nat :=
  fun u => if u == cxImmoweltUrls.getD 1 "" then [1, 2, 3, 4] else []

/-- Claim C4: the full-filter URL returns 0 items and the relaxed URL returns
4 items, yet the adapter does NOT stop at the relaxed tier: the url loop has
no break on success, so the location-only URL is attempted as well and
`items` is overwritten with its (empty) result — the run processes 0 items
instead of the 4, while the spec's stop-at-first-nonempty cascade would
return exactly the 4. -/
theorem immoweltCascadeDiscardsEarlierTiers :
    cxImmoweltFetch (cxImmoweltUrls.getD 0 "") = []
    ∧ cxImmoweltFetch (cxImmoweltUrls.getD 1 "") = [1, 2, 3, 4]
    ∧ (searchApifyImmowelt true 0 10000 12 23 7 600 3 false id cxImmoweltFetch
        cxImmoweltFilters).1 = []
    ∧ cascadeFirstNonEmpty cxImmoweltFetch cxImmoweltUrls = [1, 2, 3, 4] := by
  refine ⟨by decide, by decide, ?_, by decide⟩
  simp only [searchApifyImmowelt, canRunNowEval1, Bool.not_true, Bool.not_false,
    Bool.false_and, Bool.false_eq_true, if_false]
  decide

/-- Claim C5 counterexample: an IS24 attempt that completes with a remote
rejection (e.g. a 402 quota error: the sync run returns no dataset body)
leaves `last_run_ts` at its old value instead of stamping the current time. -/
theorem cooldownNotStampedOnRejection_cx :
    (searchApifyIS24sync (α := Nat) 0 10000 12 23 7 600 3 false none).2 = 0
    ∧ (0 : ℚ) ≠ 10000 := by
  constructor
  · simp only [searchApifyIS24sync, canRunNowEval1, Bool.not_true, Bool.not_false,
      Bool.false_and, Bool.false_eq_true, if_false]
  · decide

/-- Claim C5 amended: `last_run_ts` is stamped only on attempts whose remote
run yields a dataset body — for IS24 a returned body (even an empty item
list) stamps, but a rejected/failed run (`None`) leaves the timestamp
unchanged; for Immowelt the stamp happens only when the url cascade produced
at least one item, and an all-empty cascade leaves the timestamp unchanged. -/
theorem cooldownStampOnlyOnSuccessfulRun {α : Type} (lastRun now : ℚ)
    (hour qs qe : Nat) (base scaling : ℚ) (bypass : Bool)
    (hrun : canRunNow lastRun now base scaling hour qs qe = true ∨ bypass = true) :
    (∀ items : List α,
        (searchApifyIS24sync lastRun now hour qs qe base scaling bypass
          (some items)).2 = now)
    ∧ (searchApifyIS24sync (α := α) lastRun now hour qs qe base scaling bypass
        none).2 = lastRun
    ∧ (∀ (quote : String → String) (fetch : String → List α) (f : UserFilter),
        immoweltRunUrls fetch (buildImmoweltUrls quote f) [] = [] →
        (searchApifyImmowelt true lastRun now hour qs qe base scaling bypass
          quote fetch f).2 = lastRun)
    ∧ (∀ (quote : String → String) (fetch : String → List α) (f : UserFilter),
        immoweltRunUrls fetch (buildImmoweltUrls quote f) [] ≠ [] →
        (searchApifyImmowelt true lastRun now hour qs qe base scaling bypass
          quote fetch f).2 = now) := by
  have hgate : (!canRunNow lastRun now base scaling hour qs qe && !bypass) = false := by
    rcases hrun with h | h <;> simp [h]
  refine ⟨?_, ?_, ?_, ?_⟩
  · intro items
    simp [searchApifyIS24sync, hgate, markRun]
  · simp [searchApifyIS24sync, hgate]
  · intro quote fetch f hempty
    simp [searchApifyImmowelt, hgate, hempty]
  · intro quote fetch f hne
    simp [searchApifyImmowelt, hgate, markRun, List.isEmpty_iff, hne]

/-- Witness for `cooldownStampOnlyOnSuccessfulRun` at concrete times (bypass
set, empty dataset body). -/
theorem cooldownStampOnlyOnSuccessfulRun_witness :
    (searchApifyIS24sync (α := Nat) 0 10000 12 23 7 600 3 true (some [])).2 = 10000 :=
  (cooldownStampOnlyOnSuccessfulRun (α := Nat) 0 10000 12 23 7 600 3 true
    (Or.inr rfl)).1 []

/-- Python `a or d` for an optional string `a` (`None` and `""` fall through
to the default). -/
def pyOrS : Option String → String → String
  | some s, d => if s == "" then d else s
  | none, d => d

/-- A provider item as read by `_convert_apify_item`
(real_api_system.py lines 727-1265), restricted to the canonical scalar
fields the cited code paths read: the direct `title`/`name`/`description`
strings, the direct `price`/`rooms`/`area` numeric fields, the flat `city`,
the `id`/`listingId` identifiers and the canonical `url`. Nested provider
blocks (`hardFacts`, `rawData`, `attributes`, `address`, `gallery`,
`mainDescription`), the alternative key spellings, and the text-regex
fallbacks are represented by items whose remaining keys are absent and whose
texts contain none of the currency/room/area patterns, so those probes all
return `None` and the direct field value is what survives. -/
structure ApifyItem where
  title : Option String := none
  name : Option String := none
  description : Option String := none
  price : Option ℚ := none
  rooms : Option ℚ := none
  area : Option ℚ := none
  city : Option String := none
  id : Option String := none
  listingId : Option String := none
  url : Option String := none
deriving Repr, DecidableEq

/-- Net price extraction for the restricted item: the key loop takes the
direct `price` value; the nested / attributes / regex fallbacks find nothing
new; the default clamp (line 1215-1216) maps `None` and non-positive values
to `0.0`. -/
def extractPrice (it : ApifyItem) : ℚ :=
  match it.price with
  | some p => if p ≤ 0 then 0 else p
  | none => 0

/-- Net rooms extraction (clamp at lines 1217-1218). -/
def extractRooms (it : ApifyItem) : ℚ :=
  match it.rooms with
  | some r => if r ≤ 0 then 0 else r
  | none => 0

/-- Net area extraction (clamp at lines 1219-1220). -/
def extractArea (it : ApifyItem) : ℚ :=
  match it.area with
  | some a => if a ≤ 0 then 0 else a
  | none => 0

/-- Line 733: `item.get('title') or item.get('name') or f"Квартира в {city}"`. -/
def extractTitle (it : ApifyItem) (filterCity : String) : String :=
  pyOrS it.title (pyOrS it.name ("Квартира в " ++ filterCity))

/-- Lines 735-739 restricted to the `description` key. -/
def extractDescription (it : ApifyItem) : String := pyOrS it.description ""

/-- Line 1080: `address.get('city') or item.get('city') or city` with an
absent `address` object. -/
def extractCityName (it : ApifyItem) (filterCity : String) : String :=
  pyOrS it.city filterCity

/-- Lines 1114-1130: the url chain restricted to the `url` key, plus the IS24
expose-url synthesis from `listingId`/`id` when no url is present. -/
def extractUrl (it : ApifyItem) (source : String) : String :=
  let u := pyOrS it.url ""
  if u == "" && (source == "immobilienscout24" || source == "is24") then
    let lid := pyOrS it.listingId (pyOrS it.id "")
    if lid == "" then "" else "https://www.immobilienscout24.de/expose/" ++ lid
  else u

/-- Line 1235: `item.get('id') or item.get('listingId') or ''`. -/
def providerIdOf (it : ApifyItem) : String := pyOrS it.id (pyOrS it.listingId "")

/-- Lines 1088-1097: the `city_matches` disjunction — substring either way on
lowercased names plus the hard-coded Köln/Berlin/Hamburg variants. -/
def cityMatchesFilter (filterCity aptCity : String) : Bool :=
  let fc := pyLower filterCity
  let ac := pyLower aptCity
  pyIn fc ac || pyIn ac fc ||
  (fc == "köln" && (ac == "köln" || ac == "koeln" || ac == "cologne")) ||
  (fc == "koeln" && (ac == "köln" || ac == "koeln" || ac == "cologne")) ||
  (fc == "cologne" && (ac == "köln" || ac == "koeln" || ac == "cologne")) ||
  (fc == "berlin" && ac == "berlin") ||
  (fc == "hamburg" && ac == "hamburg")

/-- Lines 1082-1106: when the filters carry a city and it does not match the
item's city, the item is dropped — except for the `immowelt` source, which is
deliberately let through ("TEMPORARILY ALLOWING Immowelt apartment"). -/
def cityPass (it : ApifyItem) (source : String) (filters : UserFilter) : Bool :=
  match filters.city with
  | none => true
  | some fc => cityMatchesFilter fc (extractCityName it fc) || source == "immowelt"

/-- Lines 1222-1228: the meaningful-content gate on the clamped numbers and
the stripped texts. -/
def meaningfulContent (price rooms area : ℚ) (title description url : String) : Bool :=
  decide (0 < price) || decide (0 < rooms) || decide (0 < area) ||
  decide (10 < (pyStrip title).length) || decide (20 < (pyStrip description).length) ||
  (pyStrip url != "")

/-- The normalized apartment record built at lines 1240-1262 (fields not
derivable from the restricted item are their literal defaults). -/
structure Apartment where
  external_id : String
  source : String
  title : String
  description : String
  price : ℚ
  city : String
  district : String
  street : String
  postal_code : String
  rooms : ℚ
  area : ℚ
  original_url : String
  application_url : String
deriving Repr, DecidableEq

/-- real_api_system.py `_convert_apify_item` on the restricted item shape:
extraction, the city pre-filter, the meaningful-content gate, then the
surrogate-id construction `f"apify_{source}_{sha1(source|url|provider_id)[:20]}"`
(lines 1232-1239) and the output record. `sha1hex` abstracts
`hashlib.sha1(·.encode('utf-8')).hexdigest()` (a standard-library function,
not repository code); its `except` twin (line 1239) is unreachable in this
total model. -/
def convertApifyItem (sha1hex : String → String) (it : ApifyItem) (source : String)
    (filters : UserFilter) : Option Apartment :=
  let cityF := filters.city.getD "Berlin"
  let title := extractTitle it cityF
  let description := extractDescription it
  let price := extractPrice it
  let rooms := extractRooms it
  let area := extractArea it
  let cityName := extractCityName it cityF
  if !cityPass it source filters then none
  else
    let originalUrl := extractUrl it source
    if !meaningfulContent price rooms area title description originalUrl then none
    else
      let baseId := originalUrl ++ "|" ++ providerIdOf it
      let externalId := "apify_" ++ source ++ "_" ++
        pyTake (sha1hex (source ++ "|" ++ baseId)) 20
      some { external_id := externalId, source := source, title := title,
             description := description, price := price, city := cityName,
             district := "", street := "", postal_code := "", rooms := rooms,
             area := area, original_url := originalUrl,
             application_url := originalUrl }

theorem extractPrice_nonneg (it : ApifyItem) : 0 ≤ extractPrice it := by
  unfold extractPrice
  cases it.price with
  | none => simp
  | some p =>
    by_cases h : p ≤ 0
    · simp [h]
    · simp [h]; linarith

theorem extractRooms_nonneg (it : ApifyItem) : 0 ≤ extractRooms it := by
  unfold extractRooms
  cases it.rooms with
  | none => simp
  | some r =>
    by_cases h : r ≤ 0
    · simp [h]
    · simp [h]; linarith

theorem extractArea_nonneg (it : ApifyItem) : 0 ≤ extractArea it := by
  unfold extractArea
  cases it.area with
  | none => simp
  | some a =>
    by_cases h : a ≤ 0
    · simp [h]
    · simp [h]; linarith

/-- A meaningful item (price 1200, a long title, a url) whose city does not
match the filter city. -/
def cxMeaningfulItem : ApifyItem :=
  { title := some "Nice flat in Hamburg Altona", price := some 1200,
    city := some "Hamburg", id := some "42",
    url := some "https://example.org/listing/1" }

/-- Claim C8 counterexample: an item with price 1200 (so the all-zero discard
condition is false and the meaningful-content predicate holds) is nonetheless
discarded by the normalizer, because the city pre-filter (lines 1082-1106)
drops non-Immowelt items whose city does not match the filter city — so "an
item is discarded exactly when price=0 ∧ rooms=0 ∧ area=0 ∧ …" is false. -/
theorem meaningfulItemDiscardedByCityFilter_cx :
    convertApifyItem (fun s => s) cxMeaningfulItem "immobilienscout24"
      { city := some "Berlin" } = none
    ∧ meaningfulContent (extractPrice cxMeaningfulItem) (extractRooms cxMeaningfulItem)
        (extractArea cxMeaningfulItem) (extractTitle cxMeaningfulItem "Berlin")
        (extractDescription cxMeaningfulItem)
        (extractUrl cxMeaningfulItem "immobilienscout24") = true := by
  exact ⟨by decide, by decide⟩

/-- The spec's boundary example: `price=0, rooms=0, area=0, title="Apt",
description="", url=""`. -/
def specGateExampleItem : ApifyItem :=
  { title := some "Apt", description := some "", price := some 0,
    rooms := some 0, area := some 0, url := some "" }

/-- Claim C8 amended: every listing returned by the normalizer has
`price ≥ 0 ∧ rooms ≥ 0 ∧ area ≥ 0` and satisfies the meaningful-content
predicate (with whitespace-stripped text lengths); among items that survive
the city pre-filter (which already discards non-Immowelt items whose city
does not match the filter city), an item is discarded exactly when price=0 ∧
rooms=0 ∧ area=0 ∧ stripped-title length ≤ 10 ∧ stripped-description length
≤ 20 ∧ url empty; the spec's boundary example is discarded. -/
theorem normalizerGate (sha1hex : String → String) (it : ApifyItem)
    (source : String) (filters : UserFilter) :
    (∀ apt : Apartment, convertApifyItem sha1hex it source filters = some apt →
        0 ≤ apt.price ∧ 0 ≤ apt.rooms ∧ 0 ≤ apt.area ∧
        meaningfulContent apt.price apt.rooms apt.area apt.title apt.description
          apt.original_url = true)
    ∧ (cityPass it source filters = true →
        (convertApifyItem sha1hex it source filters = none ↔
          meaningfulContent (extractPrice it) (extractRooms it) (extractArea it)
            (extractTitle it (filters.city.getD "Berlin")) (extractDescription it)
            (extractUrl it source) = false))
    ∧ convertApifyItem sha1hex specGateExampleItem "immowelt"
        { city := some "Berlin" } = none := by
  refine ⟨?_, ?_, ?_⟩
  · intro apt h
    simp only [convertApifyItem] at h
    by_cases hc : cityPass it source filters
    · rw [hc] at h
      simp only [Bool.not_true, Bool.false_eq_true, if_false] at h
      by_cases hm : meaningfulContent (extractPrice it) (extractRooms it)
          (extractArea it) (extractTitle it (filters.city.getD "Berlin"))
          (extractDescription it) (extractUrl it source)
      · rw [hm] at h
        simp only [Bool.not_true, Bool.false_eq_true, if_false,
          Option.some.injEq] at h
        subst h
        exact ⟨extractPrice_nonneg it, extractRooms_nonneg it,
          extractArea_nonneg it, hm⟩
      · rw [Bool.not_eq_true] at hm
        rw [hm] at h
        simp at h
    · rw [Bool.not_eq_true] at hc
      rw [hc] at h
      simp at h
  · intro hc
    simp only [convertApifyItem, hc, Bool.not_true, Bool.false_eq_true, if_false]
    by_cases hm : meaningfulContent (extractPrice it) (extractRooms it)
        (extractArea it) (extractTitle it (filters.city.getD "Berlin"))
        (extractDescription it) (extractUrl it source)
    · simp [hm]
    · rw [Bool.not_eq_true] at hm
      simp [hm]
  · have hm : meaningfulContent (extractPrice specGateExampleItem)
        (extractRooms specGateExampleItem) (extractArea specGateExampleItem)
        (extractTitle specGateExampleItem "Berlin")
        (extractDescription specGateExampleItem)
        (extractUrl specGateExampleItem "immowelt") = false := by decide
    have hc : cityPass specGateExampleItem "immowelt" { city := some "Berlin" } = true := by
      decide
    simp [convertApifyItem, hc, hm]

/-- An item that survives normalization (used by witnesses). -/
def cxAcceptedItem : ApifyItem :=
  { title := some "Wohnung", price := some 1200, city := some "Berlin",
    id := some "7", url := some "https://e.org/1" }

/-- The record `_convert_apify_item` produces from `cxAcceptedItem` with the
identity in place of the hash. -/
def cxAcceptedApt : Apartment :=
  { external_id := "apify_immowelt_immowelt|https://e.o", source := "immowelt",
    title := "Wohnung", description := "", price := 1200, city := "Berlin",
    district := "", street := "", postal_code := "", rooms := 0, area := 0,
    original_url := "https://e.org/1", application_url := "https://e.org/1" }

/-- Witness for `normalizerGate` at a concrete accepted item. -/
theorem normalizerGate_witness :
    ((0 : ℚ) ≤ cxAcceptedApt.price ∧ (0 : ℚ) ≤ cxAcceptedApt.rooms ∧
      (0 : ℚ) ≤ cxAcceptedApt.area ∧
      meaningfulContent cxAcceptedApt.price cxAcceptedApt.rooms cxAcceptedApt.area
        cxAcceptedApt.title cxAcceptedApt.description cxAcceptedApt.original_url = true)
    ∧ (convertApifyItem (fun s => s) cxAcceptedItem "immowelt"
        { city := some "Berlin" } = none ↔
        meaningfulContent (extractPrice cxAcceptedItem) (extractRooms cxAcceptedItem)
          (extractArea cxAcceptedItem) (extractTitle cxAcceptedItem "Berlin")
          (extractDescription cxAcceptedItem)
          (extractUrl cxAcceptedItem "immowelt") = false) :=
  ⟨(normalizerGate (fun s => s) cxAcceptedItem "immowelt" { city := some "Berlin" }).1
      cxAcceptedApt (by decide),
   (normalizerGate (fun s => s) cxAcceptedItem "immowelt" { city := some "Berlin" }).2.1
      (by decide)⟩

/-- Claim C9: every listing produced by the normalizer carries the surrogate
id `"apify_" ++ source ++ "_" ++` the first 20 hex characters of the hash of
`source|url|provider_id`, and the id depends only on the source, the
canonical url, and the provider item id — two ingestions of the same provider
item yield the identical surrogate id. -/
theorem surrogateIdFormatAndStability :
    (∀ (sha1hex : String → String) (it : ApifyItem) (source : String)
        (filters : UserFilter) (apt : Apartment),
        convertApifyItem sha1hex it source filters = some apt →
        apt.external_id = "apify_" ++ source ++ "_" ++
          pyTake (sha1hex (source ++ "|" ++
            (extractUrl it source ++ "|" ++ providerIdOf it))) 20)
    ∧ (∀ (sha1hex : String → String) (it₁ it₂ : ApifyItem) (source : String)
        (f₁ f₂ : UserFilter) (a₁ a₂ : Apartment),
        convertApifyItem sha1hex it₁ source f₁ = some a₁ →
        convertApifyItem sha1hex it₂ source f₂ = some a₂ →
        extractUrl it₁ source = extractUrl it₂ source →
        providerIdOf it₁ = providerIdOf it₂ →
        a₁.external_id = a₂.external_id) := by
  have hfmt : ∀ (sha1hex : String → String) (it : ApifyItem) (source : String)
      (filters : UserFilter) (apt : Apartment),
      convertApifyItem sha1hex it source filters = some apt →
      apt.external_id = "apify_" ++ source ++ "_" ++
        pyTake (sha1hex (source ++ "|" ++
          (extractUrl it source ++ "|" ++ providerIdOf it))) 20 := by
    intro sha1hex it source filters apt h
    simp only [convertApifyItem] at h
    by_cases hc : cityPass it source filters
    · rw [hc] at h
      simp only [Bool.not_true, Bool.false_eq_true, if_false] at h
      by_cases hm : meaningfulContent (extractPrice it) (extractRooms it)
          (extractArea it) (extractTitle it (filters.city.getD "Berlin"))
          (extractDescription it) (extractUrl it source)
      · rw [hm] at h
        simp only [Bool.not_true, Bool.false_eq_true, if_false,
          Option.some.injEq] at h
        subst h
        rfl
      · rw [Bool.not_eq_true] at hm
        rw [hm] at h
        simp at h
    · rw [Bool.not_eq_true] at hc
      rw [hc] at h
      simp at h
  refine ⟨hfmt, ?_⟩
  intro sha1hex it₁ it₂ source f₁ f₂ a₁ a₂ h₁ h₂ hurl hpid
  rw [hfmt sha1hex it₁ source f₁ a₁ h₁, hfmt sha1hex it₂ source f₂ a₂ h₂, hurl, hpid]

/-- Witness for `surrogateIdFormatAndStability` at a concrete item. -/
theorem surrogateIdFormatAndStability_witness :
    cxAcceptedApt.external_id = "apify_" ++ "immowelt" ++ "_" ++
      pyTake ((fun s => s) ("immowelt" ++ "|" ++
        (extractUrl cxAcceptedItem "immowelt" ++ "|" ++ providerIdOf cxAcceptedItem))) 20 :=
  surrogateIdFormatAndStability.1 (fun s => s) cxAcceptedItem "immowelt"
    { city := some "Berlin" } cxAcceptedApt (by decide)

/-- A stored row of the `apartments` collection. -/
structure StoredApartment where
  source : String
  external_id : String
  title : String
  created_at : Nat
  updated_at : Nat
deriving Repr, DecidableEq

/-- The apartment payload handed to `save_apartment`, before it adds the
timestamps. -/
structure ApartmentDoc where
  source : String
  external_id : String
  title : String
deriving Repr, DecidableEq

/-- mongodb_manager.py lines 201-203: `apartment_data["created_at"] =
utcnow(); apartment_data["updated_at"] = utcnow()` — BOTH timestamps are set
to the current time on every call. -/
def stampDoc (d : ApartmentDoc) (now : Nat) : StoredApartment :=
  { source := d.source, external_id := d.external_id, title := d.title,
    created_at := now, updated_at := now }

/-- mongodb_manager.py `save_apartment` (lines 198-229): stamp the payload,
look up an existing row by `(external_id, source)`, and either `$set` the
whole stamped payload on that row (update-in-place) or insert a new row. -/
def save_apartment : List StoredApartment → ApartmentDoc → Nat → List StoredApartment
  | [], d, now => [stampDoc d now]
  | r :: rest, d, now =>
    if r.external_id == d.external_id && r.source == d.source then
      stampDoc d now :: rest
    else r :: save_apartment rest d now

/-- mongodb_manager.py `cleanup_old_apartments` (lines 391-406):
`delete_many({"created_at": {"$lt": cutoff_date}})`. -/
def cleanup_old_apartments (db : List StoredApartment) (cutoff : Nat) :
    List StoredApartment :=
  db.filter (fun r => !(decide (r.created_at < cutoff)))

/-- Claim C10: every `save_apartment` call stores the payload with
`created_at = updated_at = now`, also when the listing already exists and is
updated in place (the stamped row is present and every other row is
untouched from the old database), and the janitor deletes exactly the rows
with `created_at < cutoff` — since `created_at` is rewritten on every
re-ingestion, retention age is measured from the most recent save: a listing
first saved at time 0 and re-saved at time 100 survives a cutoff of 50. -/
theorem saveStampsBothTimestampsAndCleanupByLastSave :
    (∀ (db : List StoredApartment) (d : ApartmentDoc) (now : Nat),
        stampDoc d now ∈ save_apartment db d now)
    ∧ (∀ (db : List StoredApartment) (d : ApartmentDoc) (now : Nat)
        (r : StoredApartment), r ∈ save_apartment db d now →
        r = stampDoc d now ∨ r ∈ db)
    ∧ (∀ (db : List StoredApartment) (cutoff : Nat) (r : StoredApartment),
        r ∈ cleanup_old_apartments db cutoff ↔ r ∈ db ∧ cutoff ≤ r.created_at)
    ∧ cleanup_old_apartments
        (save_apartment (save_apartment [] ⟨"immowelt", "x1", "t"⟩ 0)
          ⟨"immowelt", "x1", "t"⟩ 100) 50
        = [stampDoc ⟨"immowelt", "x1", "t"⟩ 100] := by
  refine ⟨?_, ?_, ?_, by decide⟩
  · intro db d now
    induction db with
    | nil => simp [save_apartment]
    | cons r rest ih =>
      simp only [save_apartment]
      split
      · exact List.mem_cons_self _ _
      · exact List.mem_cons_of_mem _ ih
  · intro db d now r hr
    induction db with
    | nil =>
      simp [save_apartment] at hr
      exact Or.inl hr
    | cons x rest ih =>
      simp only [save_apartment] at hr
      split at hr
      · rcases List.mem_cons.mp hr with h | h
        · exact Or.inl h
        · exact Or.inr (List.mem_cons_of_mem _ h)
      · rcases List.mem_cons.mp hr with h | h
        · exact Or.inr (h ▸ List.mem_cons_self _ _)
        · rcases ih h with h' | h'
          · exact Or.inl h'
          · exact Or.inr (List.mem_cons_of_mem _ h')
  · intro db cutoff r
    simp [cleanup_old_apartments, List.mem_filter, Nat.not_lt]

/-- Witness for `saveStampsBothTimestampsAndCleanupByLastSave` at a concrete
database. -/
theorem saveStampsBothTimestampsAndCleanupByLastSave_witness :
    stampDoc ⟨"immowelt", "x1", "t"⟩ 5 ∈ save_apartment [] ⟨"immowelt", "x1", "t"⟩ 5
    ∧ (stampDoc ⟨"immowelt", "x1", "t"⟩ 5 = stampDoc ⟨"immowelt", "x1", "t"⟩ 5
        ∨ stampDoc ⟨"immowelt", "x1", "t"⟩ 5 ∈ ([] : List StoredApartment))
    ∧ (stampDoc ⟨"immowelt", "x1", "t"⟩ 5 ∈
        cleanup_old_apartments [stampDoc ⟨"immowelt", "x1", "t"⟩ 5] 3 ↔
        stampDoc ⟨"immowelt", "x1", "t"⟩ 5 ∈ [stampDoc ⟨"immowelt", "x1", "t"⟩ 5]
        ∧ 3 ≤ (stampDoc ⟨"immowelt", "x1", "t"⟩ 5).created_at) :=
  ⟨saveStampsBothTimestampsAndCleanupByLastSave.1 [] ⟨"immowelt", "x1", "t"⟩ 5,
   saveStampsBothTimestampsAndCleanupByLastSave.2.1 [] ⟨"immowelt", "x1", "t"⟩ 5
     (stampDoc ⟨"immowelt", "x1", "t"⟩ 5)
     (saveStampsBothTimestampsAndCleanupByLastSave.1 [] ⟨"immowelt", "x1", "t"⟩ 5),
   saveStampsBothTimestampsAndCleanupByLastSave.2.2.1
     [stampDoc ⟨"immowelt", "x1", "t"⟩ 5] 3 (stampDoc ⟨"immowelt", "x1", "t"⟩ 5)⟩

end Nemez
